import Mathlib

/-!
Shallow embedding of dark_window (src/src/main.rs), a Win32 application that
detects the OS dark-theme preference and applies translucency to one window.

OS calls are modelled by an environment `OsEnv` recording whether each call
succeeds, handlers return an `Outcome` carrying the trace of OS actions
performed and `none` for the result when the Rust code would panic via
`.unwrap()` on a failed call.
-/

namespace DarkWindow

/-- Initial value of the `IS_DARK_MODE` atomic (main.rs line 22). -/
def IS_DARK_MODE_init : Bool := false

/-- Initial value of the `IS_FIRST_PAINT` atomic (main.rs line 23). -/
def IS_FIRST_PAINT_init : Bool := true

/-- `DWMSBT_TRANSIENTWINDOW` backdrop type constant (main.rs line 56). -/
def DWMSBT_TRANSIENTWINDOW : Nat := 3

/-- `ACCENT_ENABLE_BLURBEHIND` accent state constant (main.rs line 103). -/
def ACCENT_ENABLE_BLURBEHIND : Nat := 3

/-- `WCA_ACCENT_POLICY` composition attribute constant (main.rs line 74). -/
def WCA_ACCENT_POLICY : Nat := 19

/-- The packed gradient color used by `set_window_blur`
(main.rs line 134): `(0x40 << 24) | (0x2f2f2f & 0xFFFFFF)`. -/
def blurGradientColor : Nat := (0x40 <<< 24) ||| (0x2f2f2f &&& 0xFFFFFF)

/-- Background color for light theme (main.rs line 266). -/
def lightBk : Nat := 0x00ffffff

/-- Text color for light theme (main.rs line 267). -/
def lightText : Nat := 0

/-- Background color for dark theme (main.rs line 270). -/
def darkBk : Nat := 0x004f061f

/-- Text color for dark theme (main.rs line 271). -/
def darkText : Nat := 0x00ffffff

/-- Success/failure of each OS call made by the program.  `regValue` is the
32-bit `AppsUseLightTheme` DWORD that `RegQueryValueExA` would deliver, or
`none` when the read fails (key/value missing). -/
structure OsEnv where
  regValue : Option Nat
  darkAttrOk : Bool
  backdropAttrOk : Bool
  extendFrameOk : Bool
  blurBehindOk : Bool
  loadLibraryOk : Bool
  getProcFound : Bool
  compAttrCallOk : Bool
  deriving DecidableEq

/-- One OS-visible action performed by a handler. -/
inductive Act where
  | setDarkAttr (enable : Bool)
  | setBackdropAttr (backdrop : Nat)
  | extendFrame (l r t b : Int)
  | dwmBlurBehind (enable : Bool)
  | loadLibrary (name : String)
  | freeLibrary (name : String)
  | getProc (name : String)
  | compAttrCall (attrib accentState accentFlags gradientColor animationId : Nat)
  | createSolidBrush (color : Nat)
  | fillRect (brushColor : Nat)
  | deleteObject (brushColor : Nat)
  | setBkColor (c : Nat)
  | setTextColor (c : Nat)
  | drawText
  | redrawWindow
  | invalidateRect
  | logMsg (s : String)
  deriving DecidableEq

/-- Result of running a handler: the trace of actions attempted, and the
return value, `none` when a `.unwrap()` panicked partway. -/
structure Outcome (α : Type) where
  trace : List Act
  result : Option α
  deriving DecidableEq

/-- The 4-byte buffer after `RegQueryValueExA` in `check_dark_mode`
(main.rs lines 30-31): zero-initialized, overwritten with the
little-endian bytes of the DWORD only when the read succeeds. -/
def regBuffer (q : Option Nat) : List Nat :=
  match q with
  | none => [0, 0, 0, 0]
  | some v => [v % 256, v / 256 % 256, v / 65536 % 256, v / 16777216 % 256]

/-- `check_dark_mode` (main.rs lines 25-39): reads the registry value and
stores `buffer[0] == 0` into `IS_DARK_MODE`.  Returns the stored flag. -/
def check_dark_mode (q : Option Nat) : Bool :=
  decide ((regBuffer q).headD 0 = 0)

/-- `enable_dark_mode` (main.rs lines 41-46): sets
`DWMWA_USE_IMMERSIVE_DARK_MODE` and `.unwrap()`s the result, so a failed
call panics. -/
def enable_dark_mode (env : OsEnv) (enable : Bool) : Outcome Unit :=
  { trace := [.setDarkAttr enable]
    result := if env.darkAttrOk then some () else none }

/-- `set_backdrop_type` (main.rs lines 59-68): sets
`DWMWA_SYSTEMBACKDROP_TYPE`; on `Err` logs and returns `false`, on `Ok`
returns `true`.  Never panics. -/
def set_backdrop_type (env : OsEnv) (backdrop : Nat) : Outcome Bool :=
  if env.backdropAttrOk then
    { trace := [.setBackdropAttr backdrop], result := some true }
  else
    { trace := [.setBackdropAttr backdrop,
                .logMsg "DWMWA_SYSTEMBACKDROP_TYPE invalid parameter"]
      result := some false }

/-- `enable_blur_behind` (main.rs lines 107-117): calls
`DwmEnableBlurBehindWindow` with `dwFlags = DWM_BB_ENABLE`, `fEnable = true`
and a null blur region (whole window), `.unwrap()`ing the result. -/
def enable_blur_behind (env : OsEnv) : Outcome Bool :=
  { trace := [.dwmBlurBehind true]
    result := if env.blurBehindOk then some true else none }

/-- `set_window_blur` (main.rs lines 119-147): dynamically resolves
`SetWindowCompositionAttribute` from user32.dll; on load/resolve failure
logs and returns `false`; otherwise calls it with a `WCA_ACCENT_POLICY`
payload carrying the given accent state, flags 0, the fixed gradient color
and animation id 0. -/
def set_window_blur (env : OsEnv) (accent_state : Nat) : Outcome Bool :=
  if !env.loadLibraryOk then
    { trace := [.loadLibrary "user32.dll", .logMsg "Failed to load DLL"]
      result := some false }
  else if !env.getProcFound then
    { trace := [.loadLibrary "user32.dll",
                .getProc "SetWindowCompositionAttribute",
                .logMsg "SetWindowCompositionAttribute entry point not found!"]
      result := some false }
  else
    { trace := [.loadLibrary "user32.dll",
                .getProc "SetWindowCompositionAttribute",
                .compAttrCall WCA_ACCENT_POLICY accent_state 0 blurGradientColor 0]
      result := some env.compAttrCallOk }

/-- The `WM_CREATE` arm of `wndproc` (main.rs lines 242-257):
`enable_dark_mode`, then `set_backdrop_type(DWMSBT_TRANSIENTWINDOW)`;
on its failure `DwmExtendFrameIntoClientArea` with margins all -1
(`.unwrap()`) then `set_window_blur(ACCENT_ENABLE_BLURBEHIND)`;
on its success `enable_blur_behind`.  Returns `LRESULT(0)`. -/
def wmCreate (env : OsEnv) (darkFlag : Bool) : Outcome Int :=
  let d := enable_dark_mode env darkFlag
  match d.result with
  | none => { trace := d.trace, result := none }
  | some _ =>
    let b := set_backdrop_type env DWMSBT_TRANSIENTWINDOW
    match b.result with
    | none => { trace := d.trace ++ b.trace, result := none }
    | some ok =>
      if ok then
        let e := enable_blur_behind env
        { trace := d.trace ++ b.trace ++ e.trace
          result := e.result.map fun _ => (0 : Int) }
      else
        if env.extendFrameOk then
          let s := set_window_blur env ACCENT_ENABLE_BLURBEHIND
          { trace := d.trace ++ b.trace
                       ++ [.extendFrame (-1) (-1) (-1) (-1)] ++ s.trace
            result := some 0 }
        else
          { trace := d.trace ++ b.trace ++ [.extendFrame (-1) (-1) (-1) (-1)]
            result := none }

/-- Output of the `WM_ERASEBKGND` arm: colors chosen, trace, the
`IS_FIRST_PAINT` value after the handler, and the returned `LRESULT`. -/
structure EraseOutput where
  bgColor : Nat
  textColor : Nat
  trace : List Act
  firstPaintAfter : Bool
  lresult : Int
  deriving DecidableEq

/-- The `WM_ERASEBKGND` arm of `wndproc` (main.rs lines 258-292): picks the
palette by matching on `IS_DARK_MODE`, fills the client rect with a
temporary solid brush which it then deletes, sets colors and draws the
greeting, and on the first paint flips `IS_FIRST_PAINT` and requests
`RedrawWindow(RDW_FRAME | RDW_INVALIDATE)` plus `InvalidateRect`.
Returns `LRESULT(0)`. -/
def wmEraseBkgnd (dark firstPaint : Bool) : EraseOutput :=
  let colors : Nat × Nat :=
    match dark with
    | false => (lightBk, lightText)
    | true => (darkBk, darkText)
  { bgColor := colors.1
    textColor := colors.2
    trace := [.createSolidBrush colors.1, .fillRect colors.1,
              .deleteObject colors.1, .setBkColor colors.1,
              .setTextColor colors.2, .drawText]
             ++ (if firstPaint then [.redrawWindow, .invalidateRect] else [])
    firstPaintAfter := if firstPaint then false else firstPaint
    lresult := 0 }

/-- The `WM_SETTINGCHANGE` arm of `wndproc` (main.rs lines 304-310):
`check_dark_mode` re-reads the preference and stores the flag, then
`enable_dark_mode` is applied with the freshly stored flag (panics on
failure), then `InvalidateRect`.  The result is the stored dark flag;
`prevDark` is the flag before the handler (unread by the code). -/
def wmSettingChange (env : OsEnv) (_prevDark : Bool) : Outcome Bool :=
  let dark := check_dark_mode env.regValue
  let d := enable_dark_mode env dark
  match d.result with
  | none => { trace := d.trace, result := none }
  | some _ => { trace := d.trace ++ [.invalidateRect], result := some dark }

/-- `IS_FIRST_PAINT` after `n` consecutive `WM_ERASEBKGND` events starting
from flag value `fp`. -/
def eraseIterFlag (dark : Bool) : Nat → Bool → Bool
  | 0, fp => fp
  | n + 1, fp => eraseIterFlag dark n (wmEraseBkgnd dark fp).firstPaintAfter

/-- Number of `RedrawWindow` requests issued over `n` consecutive
`WM_ERASEBKGND` events starting from flag value `fp`. -/
def redrawCount (dark : Bool) : Nat → Bool → Nat
  | 0, _ => 0
  | n + 1, fp =>
    (wmEraseBkgnd dark fp).trace.count .redrawWindow
      + redrawCount dark n (wmEraseBkgnd dark fp).firstPaintAfter

/-- A trace is brush-balanced when every brush created in it is deleted in
it the same number of times. -/
def brushBalanced (t : List Act) : Prop :=
  ∀ c, t.count (.createSolidBrush c) = t.count (.deleteObject c)

/-- An environment in which every OS call succeeds and the registry reports
`AppsUseLightTheme = 1`. -/
def envAllOk : OsEnv :=
  ⟨some 1, true, true, true, true, true, true, true⟩

/- Helper lemmas shared by the claim theorems. -/

theorem erase_flagAfter_false (dark : Bool) :
    (wmEraseBkgnd dark false).firstPaintAfter = false := by
  cases dark <;> decide

theorem erase_false_no_redraw (dark : Bool) :
    (wmEraseBkgnd dark false).trace.count Act.redrawWindow = 0 := by
  cases dark <;> decide

theorem eraseIterFlag_false (dark : Bool) (n : Nat) :
    eraseIterFlag dark n false = false := by
  induction n with
  | zero => rfl
  | succ m ih => simp [eraseIterFlag, erase_flagAfter_false, ih]

theorem redrawCount_false (dark : Bool) (n : Nat) :
    redrawCount dark n false = 0 := by
  induction n with
  | zero => rfl
  | succ m ih => simp [redrawCount, erase_flagAfter_false, erase_false_no_redraw, ih]

/-- C1 counterexample: for the 32-bit registry value 256 (nonzero, low byte
zero) `check_dark_mode` stores dark = true, where the claim demands false
for every nonzero value; likewise a failed read leaves the zero-initialized
buffer and stores dark = true, where the claim demands false. -/
theorem c1_cex :
    check_dark_mode (some 256) = true
    ∧ (256 : Nat) ≠ 0
    ∧ check_dark_mode none = true := by decide

/-- C1 (amended): `check_dark_mode` tests only the first byte of the
4-byte read buffer, so for a successfully read 32-bit value `v` the dark
flag is set to true iff `v` is divisible by 256 (in particular iff v = 0
when v < 256), and when the registry read fails the zero-initialized
buffer makes it store dark = true. -/
theorem c1_first_byte :
    (∀ v : Nat, check_dark_mode (some v) = decide (v % 256 = 0))
    ∧ check_dark_mode none = true := by
  refine ⟨fun v => ?_, by decide⟩
  simp [check_dark_mode, regBuffer]

/-- C3 counterexample: the erase-background handler returns `LRESULT(0)`,
not a nonzero "handled" result, already on a plain light-theme repaint. -/
theorem c3_cex : (wmEraseBkgnd false false).lresult = 0 := by decide

/-- C3 (amended): for every theme state and first-paint state, the
erase-background handler paints the full background itself but returns
zero, the "not erased" result, rather than the nonzero "handled" one. -/
theorem c3_returns_zero (dark firstPaint : Bool) :
    (wmEraseBkgnd dark firstPaint).lresult = 0
    ∧ Act.fillRect (wmEraseBkgnd dark firstPaint).bgColor
        ∈ (wmEraseBkgnd dark firstPaint).trace := by
  cases dark <;> cases firstPaint <;> decide

/-- C6: the first-paint flag starts true; across any positive number of
erase-background events it ends false, exactly one `RedrawWindow` request
is issued in total, the invocation entered with the flag true flips it and
requests both the frame redraw and the full invalidation, and invocations
entered with the flag false request neither. -/
theorem c6_first_paint_once (dark : Bool) (n : Nat) :
    IS_FIRST_PAINT_init = true
    ∧ eraseIterFlag dark (n + 1) IS_FIRST_PAINT_init = false
    ∧ redrawCount dark (n + 1) IS_FIRST_PAINT_init = 1
    ∧ (wmEraseBkgnd dark true).firstPaintAfter = false
    ∧ (wmEraseBkgnd dark true).trace.count Act.redrawWindow = 1
    ∧ (wmEraseBkgnd dark true).trace.count Act.invalidateRect = 1
    ∧ (wmEraseBkgnd dark false).trace.count Act.redrawWindow = 0
    ∧ (wmEraseBkgnd dark false).trace.count Act.invalidateRect = 0 := by
  refine ⟨rfl, ?_, ?_, ?_, ?_, ?_, ?_, ?_⟩
  · have h1 : (wmEraseBkgnd dark IS_FIRST_PAINT_init).firstPaintAfter = false := by
      cases dark <;> decide
    simp [eraseIterFlag, h1, eraseIterFlag_false]
  · have h1 : (wmEraseBkgnd dark IS_FIRST_PAINT_init).firstPaintAfter = false := by
      cases dark <;> decide
    have h2 : (wmEraseBkgnd dark IS_FIRST_PAINT_init).trace.count Act.redrawWindow = 1 := by
      cases dark <;> decide
    simp [redrawCount, h1, h2, redrawCount_false]
  all_goals cases dark <;> decide

/-- C7: the painted palette is total and exhaustive over the boolean theme
state: dark maps to the fixed dark-purple background `0x004f061f` with
white text `0x00ffffff`, light maps to white background with black text,
independent of the first-paint state. -/
theorem c7_palette_total (dark firstPaint : Bool) :
    (wmEraseBkgnd dark firstPaint).bgColor = (if dark then darkBk else lightBk)
    ∧ (wmEraseBkgnd dark firstPaint).textColor = (if dark then darkText else lightText)
    ∧ darkBk = 0x004f061f ∧ darkText = 0x00ffffff
    ∧ lightBk = 0x00ffffff ∧ lightText = 0 := by
  cases dark <;> cases firstPaint <;> decide

/-- C2 counterexample: each of the three `.unwrap()`ed calls in the
creation path panics on failure — a failed dark-chrome attribute set, a
failed frame extension (with the backdrop attribute rejected), and a
failed blur-behind enable (with the backdrop attribute accepted) all abort
window creation instead of being logged. -/
theorem c2_cex :
    (wmCreate ⟨some 0, false, true, true, true, true, true, true⟩ true).result = none
    ∧ (wmCreate ⟨some 0, true, false, false, true, true, true, true⟩ true).result = none
    ∧ (wmCreate ⟨some 0, true, true, true, false, true, true, true⟩ true).result = none := by
  decide

/-- C2 (amended): the creation handler panics exactly when the dark-chrome
attribute set fails, or the blur-behind enable fails on the accepted-backdrop
path, or the frame extension fails on the rejected-backdrop path; failures
of the backdrop attribute request and of the dynamically resolved legacy
blur call alone never panic. -/
theorem c2_panic_characterization (env : OsEnv) (dark : Bool) :
    (wmCreate env dark).result = none
    ↔ ¬(env.darkAttrOk = true
          ∧ (env.backdropAttrOk = true → env.blurBehindOk = true)
          ∧ (env.backdropAttrOk = false → env.extendFrameOk = true)) := by
  rcases env with ⟨q, da, ba, ef, bb, ll, gp, ca⟩
  cases da <;> cases ba <;> cases ef <;> cases bb <;> cases ll <;> cases gp <;>
    simp [wmCreate, enable_dark_mode, set_backdrop_type, enable_blur_behind,
      set_window_blur]

/-- C4 counterexample: when the dark-chrome attribute set fails, the
creation handler panics before the system-backdrop step, so that step is
not attempted at all — contradicting "whatever its result, the creation
handler still attempts the system-backdrop step". -/
theorem c4_cex :
    Act.setBackdropAttr DWMSBT_TRANSIENTWINDOW
      ∉ (wmCreate ⟨some 0, false, true, true, true, true, true, true⟩ true).trace := by
  decide

/-- C4 (amended): when the dark-chrome attribute set succeeds, the creation
handler always attempts the system-backdrop step and, if that step fails,
the legacy frame-extension step; when the dark-chrome set fails, the
handler panics and attempts neither. -/
theorem c4_darkchrome_not_blocking (env : OsEnv) (dark : Bool)
    (h : env.darkAttrOk = true) :
    Act.setBackdropAttr DWMSBT_TRANSIENTWINDOW ∈ (wmCreate env dark).trace
    ∧ (env.backdropAttrOk = false →
        Act.extendFrame (-1) (-1) (-1) (-1) ∈ (wmCreate env dark).trace) := by
  rcases env with ⟨q, da, ba, ef, bb, ll, gp, ca⟩
  cases da <;> cases ba <;> cases ef <;> cases ll <;> cases gp <;>
    simp_all [wmCreate, enable_dark_mode, set_backdrop_type, enable_blur_behind,
      set_window_blur, DWMSBT_TRANSIENTWINDOW]

/-- C4 witness at a concrete environment whose backdrop request fails. -/
theorem c4_darkchrome_not_blocking_witness :
    (OsEnv.darkAttrOk ⟨some 0, true, false, true, true, true, true, true⟩ = true)
    ∧ (Act.setBackdropAttr DWMSBT_TRANSIENTWINDOW
         ∈ (wmCreate ⟨some 0, true, false, true, true, true, true, true⟩ true).trace
       ∧ ((⟨some 0, true, false, true, true, true, true, true⟩ : OsEnv).backdropAttrOk = false →
           Act.extendFrame (-1) (-1) (-1) (-1)
             ∈ (wmCreate ⟨some 0, true, false, true, true, true, true, true⟩ true).trace)) :=
  ⟨rfl, c4_darkchrome_not_blocking ⟨some 0, true, false, true, true, true, true, true⟩ true rfl⟩

/-- C5: given the dark-chrome set succeeded (otherwise the handler has
already panicked), the legacy path is entered iff the system-backdrop
attribute request fails: the frame-extension attempt appears in the trace
exactly then, and when it succeeds the handler's trace is the dark-chrome
call, the backdrop call, the frame extension and then the legacy blur
call, in that order; and when `SetWindowCompositionAttribute` cannot be
resolved by name, `set_window_blur` reports failure without any
composition-attribute call. -/
theorem c5_fallback_chain (env : OsEnv) (dark : Bool)
    (h : env.darkAttrOk = true) :
    (Act.extendFrame (-1) (-1) (-1) (-1) ∈ (wmCreate env dark).trace
       ↔ env.backdropAttrOk = false)
    ∧ (env.backdropAttrOk = false → env.extendFrameOk = true →
        (wmCreate env dark).trace
          = (enable_dark_mode env dark).trace
              ++ (set_backdrop_type env DWMSBT_TRANSIENTWINDOW).trace
              ++ [Act.extendFrame (-1) (-1) (-1) (-1)]
              ++ (set_window_blur env ACCENT_ENABLE_BLURBEHIND).trace)
    ∧ (env.loadLibraryOk = true → env.getProcFound = false →
        (set_window_blur env ACCENT_ENABLE_BLURBEHIND).result = some false
          ∧ (set_window_blur env ACCENT_ENABLE_BLURBEHIND).trace
              = [Act.loadLibrary "user32.dll",
                 Act.getProc "SetWindowCompositionAttribute",
                 Act.logMsg "SetWindowCompositionAttribute entry point not found!"]) := by
  rcases env with ⟨q, da, ba, ef, bb, ll, gp, ca⟩
  cases da <;> cases ba <;> cases ef <;> cases ll <;> cases gp <;>
    simp_all [wmCreate, enable_dark_mode, set_backdrop_type, enable_blur_behind,
      set_window_blur]

/-- C5 witness at a concrete environment where the backdrop request fails,
the frame extension succeeds and the capability cannot be resolved. -/
theorem c5_fallback_chain_witness :
    (OsEnv.darkAttrOk ⟨some 0, true, false, true, true, true, false, true⟩ = true)
    ∧ ((Act.extendFrame (-1) (-1) (-1) (-1)
          ∈ (wmCreate ⟨some 0, true, false, true, true, true, false, true⟩ true).trace
        ↔ (⟨some 0, true, false, true, true, true, false, true⟩ : OsEnv).backdropAttrOk
            = false)
       ∧ ((⟨some 0, true, false, true, true, true, false, true⟩ : OsEnv).backdropAttrOk = false →
           (⟨some 0, true, false, true, true, true, false, true⟩ : OsEnv).extendFrameOk = true →
           (wmCreate ⟨some 0, true, false, true, true, true, false, true⟩ true).trace
             = (enable_dark_mode ⟨some 0, true, false, true, true, true, false, true⟩ true).trace
                 ++ (set_backdrop_type ⟨some 0, true, false, true, true, true, false, true⟩
                       DWMSBT_TRANSIENTWINDOW).trace
                 ++ [Act.extendFrame (-1) (-1) (-1) (-1)]
                 ++ (set_window_blur ⟨some 0, true, false, true, true, true, false, true⟩
                       ACCENT_ENABLE_BLURBEHIND).trace)
       ∧ ((⟨some 0, true, false, true, true, true, false, true⟩ : OsEnv).loadLibraryOk = true →
           (⟨some 0, true, false, true, true, true, false, true⟩ : OsEnv).getProcFound = false →
           (set_window_blur ⟨some 0, true, false, true, true, true, false, true⟩
               ACCENT_ENABLE_BLURBEHIND).result = some false
             ∧ (set_window_blur ⟨some 0, true, false, true, true, true, false, true⟩
                   ACCENT_ENABLE_BLURBEHIND).trace
                 = [Act.loadLibrary "user32.dll",
                    Act.getProc "SetWindowCompositionAttribute",
                    Act.logMsg "SetWindowCompositionAttribute entry point not found!"])) :=
  ⟨rfl, c5_fallback_chain ⟨some 0, true, false, true, true, true, false, true⟩ true rfl⟩

/-- C8 counterexample: on the legacy path `set_window_blur` loads
user32.dll but the handler never frees it — the module handle is not
released before the creation handler returns. -/
theorem c8_cex :
    Act.loadLibrary "user32.dll"
      ∈ (wmCreate ⟨some 0, true, false, true, true, true, true, true⟩ true).trace
    ∧ Act.freeLibrary "user32.dll"
        ∉ (wmCreate ⟨some 0, true, false, true, true, true, true, true⟩ true).trace := by
  decide

/-- C8 (amended): the temporary background brush is created and deleted in
matched pairs inside the erase-background handler on every path, but the
module handle resolved for the legacy blur capability is never released:
no event handler ever performs a free-library action. -/
theorem c8_transient_resources (dark firstPaint : Bool) (env : OsEnv) (s : String) :
    brushBalanced (wmEraseBkgnd dark firstPaint).trace
    ∧ Act.freeLibrary s ∉ (wmCreate env dark).trace
    ∧ Act.freeLibrary s ∉ (set_window_blur env ACCENT_ENABLE_BLURBEHIND).trace
    ∧ Act.freeLibrary s ∉ (wmSettingChange env dark).trace := by
  refine ⟨?_, ?_, ?_, ?_⟩
  · intro c
    cases dark <;> cases firstPaint <;>
      simp [wmEraseBkgnd, List.count_cons, List.count_nil]
  all_goals
    rcases env with ⟨q, da, ba, ef, bb, ll, gp, ca⟩
    cases da <;> cases ba <;> cases ef <;> cases bb <;> cases ll <;> cases gp <;>
      simp [wmCreate, wmSettingChange, enable_dark_mode, set_backdrop_type,
        enable_blur_behind, set_window_blur]

/-- C9: with the OS preference unchanged between two consecutive
settings-change events (same environment), the stored theme flag after the
second run equals the one after the first, independent of the flag before,
and background paints keyed by the two flags produce identical outputs
(colors included). -/
theorem c9_settingchange_idempotent (env : OsEnv) (prev : Bool)
    (h : env.darkAttrOk = true) :
    ∃ d1 d2 : Bool,
      (wmSettingChange env prev).result = some d1
      ∧ (wmSettingChange env d1).result = some d2
      ∧ d1 = d2
      ∧ ∀ fp, wmEraseBkgnd d1 fp = wmEraseBkgnd d2 fp := by
  refine ⟨check_dark_mode env.regValue, check_dark_mode env.regValue,
    ?_, ?_, rfl, fun fp => rfl⟩ <;>
  simp [wmSettingChange, enable_dark_mode, h]

/-- C9 witness at the all-succeeding environment reporting
`AppsUseLightTheme = 1`. -/
theorem c9_settingchange_idempotent_witness :
    envAllOk.darkAttrOk = true
    ∧ (∃ d1 d2 : Bool,
        (wmSettingChange envAllOk false).result = some d1
        ∧ (wmSettingChange envAllOk d1).result = some d2
        ∧ d1 = d2
        ∧ ∀ fp, wmEraseBkgnd d1 fp = wmEraseBkgnd d2 fp) :=
  ⟨rfl, c9_settingchange_idempotent envAllOk false rfl⟩

/-- C10: when the system-backdrop request succeeds, the creation handler
additionally enables DWM blur-behind on the whole window; and the accent
policy passed by `set_window_blur` always carries the fixed packed tint
`(0x40 << 24) | 0x2f2f2f = 0x402f2f2f`, flags 0 and animation id 0,
with no dependence on the theme state. -/
theorem c10_success_blur_and_fixed_tint (env : OsEnv) (dark : Bool) (st : Nat)
    (h1 : env.darkAttrOk = true) (h2 : env.backdropAttrOk = true)
    (h3 : env.loadLibraryOk = true) (h4 : env.getProcFound = true) :
    Act.dwmBlurBehind true ∈ (wmCreate env dark).trace
    ∧ blurGradientColor = 0x402f2f2f
    ∧ (set_window_blur env st).trace
        = [Act.loadLibrary "user32.dll",
           Act.getProc "SetWindowCompositionAttribute",
           Act.compAttrCall WCA_ACCENT_POLICY st 0 blurGradientColor 0] := by
  rcases env with ⟨q, da, ba, ef, bb, ll, gp, ca⟩
  refine ⟨?_, by decide, ?_⟩ <;>
    simp_all [wmCreate, enable_dark_mode, set_backdrop_type, enable_blur_behind,
      set_window_blur]

/-- C10 witness at the all-succeeding environment with the blur-behind
accent state. -/
theorem c10_success_blur_and_fixed_tint_witness :
    envAllOk.darkAttrOk = true ∧ envAllOk.backdropAttrOk = true
    ∧ envAllOk.loadLibraryOk = true ∧ envAllOk.getProcFound = true
    ∧ (Act.dwmBlurBehind true ∈ (wmCreate envAllOk true).trace
       ∧ blurGradientColor = 0x402f2f2f
       ∧ (set_window_blur envAllOk ACCENT_ENABLE_BLURBEHIND).trace
           = [Act.loadLibrary "user32.dll",
              Act.getProc "SetWindowCompositionAttribute",
              Act.compAttrCall WCA_ACCENT_POLICY ACCENT_ENABLE_BLURBEHIND 0
                blurGradientColor 0]) :=
  ⟨rfl, rfl, rfl, rfl,
    c10_success_blur_and_fixed_tint envAllOk true ACCENT_ENABLE_BLURBEHIND
      rfl rfl rfl rfl⟩

end DarkWindow
